import Mathlib

/-!
Shallow embedding of the pull-request creation workflow
(`chatgpt_code_worker/pr_creator/workflow.py`) and its controller
(`pull_request_manager/controller.py`).

The Python activities are pure command builders: they construct argv-style
command token lists and never execute them.  The only impure ingredients are
the two `uuid4().hex` calls (container identifier, commit sha); these are
modelled by passing the generated hex strings explicitly (`gen` arguments /
the `IdGen` record), so every run of the workflow is a pure function of its
input and of the identifier draws.
-/

namespace PrCreator

/-- `ContainerConfig` from workflow.py: configuration used when creating a
CaaS container. -/
structure ContainerConfig where
  image : String
  command : List String
  environment : List (String × String)
  workspace_dir : String
  idle_timeout_seconds : Nat
deriving DecidableEq, Repr

/-- `ContainerHandle`: reference to a provisioned container. -/
structure ContainerHandle where
  container_id : String
  workspace_dir : String
deriving DecidableEq, Repr

/-- `GitCloneOptions`: options describing how the repository is cloned.
`sparse_paths : Optional[Sequence[str]]` becomes `Option (List String)`. -/
structure GitCloneOptions where
  repository_url : String
  branch : String
  depth : Int
  sparse_paths : Option (List String)
deriving DecidableEq, Repr

/-- `SedimentArtifact`: storage key + filename of the patch. -/
structure SedimentArtifact where
  storage_key : String
  filename : String
deriving DecidableEq, Repr

/-- `GitCommitOptions`: data used when creating the commit. -/
structure GitCommitOptions where
  message : String
  author_name : String
  author_email : String
deriving DecidableEq, Repr

/-- `PushOptions`: remote name and force flag. -/
structure PushOptions where
  remote : String
  force : Bool
deriving DecidableEq, Repr

/-- `WorkflowStep`: single high level step executed by the workflow. -/
structure WorkflowStep where
  name : String
  description : String
  commands : List (List String)
deriving DecidableEq, Repr

/-- `CloneRepositoryActivityInput` (Python default `checkout_path="repo"`). -/
structure CloneRepositoryActivityInput where
  container : ContainerHandle
  options : GitCloneOptions
  checkout_path : String
deriving DecidableEq, Repr

/-- `CloneRepositoryActivityResult`. -/
structure CloneRepositoryActivityResult where
  repository_path : String
  commands : List (List String)
deriving DecidableEq, Repr

/-- `ApplySedimentActivityInput`. -/
structure ApplySedimentActivityInput where
  container : ContainerHandle
  repository_path : String
  sediment : SedimentArtifact
deriving DecidableEq, Repr

/-- `ApplySedimentActivityResult`. -/
structure ApplySedimentActivityResult where
  commands : List (List String)
deriving DecidableEq, Repr

/-- `CreateBranchAndPushActivityInput`. -/
structure CreateBranchAndPushActivityInput where
  container : ContainerHandle
  repository_path : String
  new_branch : String
  base_branch : String
  commit : GitCommitOptions
  push : PushOptions
deriving DecidableEq, Repr

/-- `CreateBranchAndPushActivityResult`. -/
structure CreateBranchAndPushActivityResult where
  commands : List (List String)
  commit_sha : String
deriving DecidableEq, Repr

/-- `CreatePullRequestWorkflowInput`: aggregated configuration for a run. -/
structure CreatePullRequestWorkflowInput where
  container : ContainerConfig
  clone : GitCloneOptions
  sediment : SedimentArtifact
  new_branch : String
  commit : GitCommitOptions
  push : PushOptions
deriving DecidableEq, Repr

/-- `CreatePullRequestWorkflowResult`: result returned when the workflow
finishes. -/
structure CreatePullRequestWorkflowResult where
  new_branch : String
  container_id : String
  commit_sha : String
  steps : List WorkflowStep
deriving DecidableEq, Repr

/-- The two `uuid4().hex` draws a workflow run consumes: one for the container
identifier, one for the commit sha.  Passing them explicitly makes the run a
pure function. -/
structure IdGen where
  container_hex : String
  commit_hex : String
deriving DecidableEq, Repr

/-- Python `s.rstrip("/")`: remove all trailing `/` characters. -/
def rstripSlash (s : String) : String :=
  ⟨(s.data.reverse.dropWhile (fun c => c == '/')).reverse⟩

/-- Activity `pr_creator.start_caas_container`: provision a container and
return the handle.  `container_id = "caas-" ++ uuid4().hex`; the hex draw is
the explicit `gen` argument. -/
def start_caas_container (gen : String) (container : ContainerConfig) :
    ContainerHandle :=
  { container_id := "caas-" ++ gen, workspace_dir := container.workspace_dir }

/-- Activity `pr_creator.clone_repository`: build the git clone command list.
Mirrors the Python body token for token; `if input.options.sparse_paths:` is
Python truthiness, false for both `None` and the empty sequence. -/
def clone_repository (input : CloneRepositoryActivityInput) :
    CloneRepositoryActivityResult :=
  let checkout_full_path :=
    rstripSlash (input.container.workspace_dir ++ "/" ++ input.checkout_path)
  let command : List String :=
    ["git", "clone", "--filter=blob:none", "--sparse",
     "--depth=" ++ toString input.options.depth,
     "--branch=" ++ input.options.branch,
     "--single-branch",
     input.options.repository_url,
     checkout_full_path]
  let commands : List (List String) :=
    match input.options.sparse_paths with
    | none => [command]
    | some ps =>
        if ps = [] then [command]
        else [command,
              ["git", "-C", checkout_full_path, "sparse-checkout", "set"] ++ ps]
  { repository_path := checkout_full_path, commands := commands }

/-- Activity `pr_creator.apply_sediment_patch`: download, upload and apply the
sediment patch. -/
def apply_sediment_patch (input : ApplySedimentActivityInput) :
    ApplySedimentActivityResult :=
  let remote_path := input.repository_path ++ "/" ++ input.sediment.filename
  { commands :=
      [["artifact", "download", input.sediment.storage_key,
        input.sediment.filename],
       ["caas", "upload", input.sediment.filename, remote_path],
       ["git", "-C", input.repository_path, "apply",
        input.sediment.filename]] }

/-- Activity `pr_creator.create_branch_and_push`: the four git commands, with
the Python list comprehension `[arg for arg in command if arg]` modelled as a
filter removing empty-string tokens; `commit_sha = uuid4().hex` is the
explicit `gen` argument. -/
def create_branch_and_push (gen : String)
    (input : CreateBranchAndPushActivityInput) :
    CreateBranchAndPushActivityResult :=
  let commit_sha := gen
  let commands : List (List String) :=
    [["git", "-C", input.repository_path, "checkout", input.base_branch],
     ["git", "-C", input.repository_path, "checkout", "-B", input.new_branch],
     ["git", "-C", input.repository_path, "commit", "--all", "--message",
      input.commit.message, "--author",
      input.commit.author_name ++ " <" ++ input.commit.author_email ++ ">"],
     ["git", "-C", input.repository_path, "push", input.push.remote,
      input.new_branch,
      if input.push.force then "--force" else ""]]
  let normalized_commands :=
    commands.map (fun command => command.filter (fun arg => arg ≠ ""))
  { commands := normalized_commands, commit_sha := commit_sha }

/-- `CreatePullRequestWorkflow.run`: the orchestrator.  The temporalio stub's
`execute_activity` calls each activity function directly, so the run is the
straight-line sequencing below; `workflow.logger.info` calls have no effect on
the result and are omitted. -/
def CreatePullRequestWorkflow.run (gen : IdGen)
    (input : CreatePullRequestWorkflowInput) :
    CreatePullRequestWorkflowResult :=
  let container_handle := start_caas_container gen.container_hex input.container
  let steps0 : List WorkflowStep :=
    [{ name := "start-container",
       description := "Started CaaS container " ++ container_handle.container_id,
       commands := [] }]
  let clone_result := clone_repository
    { container := container_handle, options := input.clone,
      checkout_path := "repo" }
  let steps1 := steps0 ++
    [{ name := "clone-repository",
       description := "Cloned repository into the container workspace",
       commands := clone_result.commands }]
  let apply_patch_result := apply_sediment_patch
    { container := container_handle,
      repository_path := clone_result.repository_path,
      sediment := input.sediment }
  let steps2 := steps1 ++
    [{ name := "apply-sediment",
       description := "Downloaded sediment diff and applied it to the checkout",
       commands := apply_patch_result.commands }]
  let push_result := create_branch_and_push gen.commit_hex
    { container := container_handle,
      repository_path := clone_result.repository_path,
      new_branch := input.new_branch,
      base_branch := input.clone.branch,
      commit := input.commit,
      push := input.push }
  let steps3 := steps2 ++
    [{ name := "push-branch",
       description := "Created the branch and pushed it to the remote",
       commands := push_result.commands }]
  { new_branch := input.new_branch,
    container_id := container_handle.container_id,
    commit_sha := push_result.commit_sha,
    steps := steps3 }

/-- `run_create_pull_request_workflow`: the in-process helper.  The
`_ensure_iterable` pass only raises on non-iterable commands (impossible
here) and returns the result unchanged. -/
def run_create_pull_request_workflow (gen : IdGen)
    (input : CreatePullRequestWorkflowInput) :
    CreatePullRequestWorkflowResult :=
  CreatePullRequestWorkflow.run gen input

end PrCreator

namespace PullRequestManager

open PrCreator

/-- `PullRequestFeatureFlags` from controller.py. -/
structure PullRequestFeatureFlags where
  enable_caas_workflow : Bool
deriving DecidableEq, Repr

/-- `CreatePullRequestRequest`. -/
structure CreatePullRequestRequest where
  repository_url : String
  base_branch : String
  new_branch : String
  sediment_storage_key : String
  commit_message : String
  author_name : String
  author_email : String
  push_options : Option PushOptions
deriving DecidableEq, Repr

/-- `CreatePullRequestResponse`. -/
structure CreatePullRequestResponse where
  branch : String
  commit_sha : String
  used_temporal_workflow : Bool
  steps : List WorkflowStep
deriving DecidableEq, Repr

/-- `PullRequestController` state after `__init__` with the in-process
`LocalWorkflowRunner` (the runner executes the workflow inline, so only the
flags and container config remain as data). -/
structure PullRequestController where
  feature_flags : PullRequestFeatureFlags
  container_config : ContainerConfig
deriving DecidableEq, Repr

/-- `ContainerConfig` defaults used by `PullRequestController.__init__` when
none is supplied. -/
def defaultControllerContainerConfig : ContainerConfig :=
  { image := "ghcr.io/openai/chatgpt-code-worker:latest",
    command := ["/bin/bash"],
    environment := [],
    workspace_dir := "/workspace",
    idle_timeout_seconds := 600 }

/-- `PullRequestController._legacy_create_pull_request`: placeholder path. -/
def PullRequestController.legacy_create_pull_request
    (request : CreatePullRequestRequest) : CreatePullRequestResponse :=
  { branch := request.new_branch,
    commit_sha := "",
    used_temporal_workflow := false,
    steps := [] }

/-- The `CreatePullRequestWorkflowInput` the controller builds from a request
(dataclass defaults filled in: `depth=1`, `sparse_paths=None`,
`filename="sediment.patch"`; `request.push_options or PushOptions()` is the
`Option.getD` below since a dataclass instance is always truthy). -/
def PullRequestController.workflow_input (ctrl : PullRequestController)
    (request : CreatePullRequestRequest) : CreatePullRequestWorkflowInput :=
  { container := ctrl.container_config,
    clone :=
      { repository_url := request.repository_url,
        branch := request.base_branch,
        depth := 1,
        sparse_paths := none },
    sediment :=
      { storage_key := request.sediment_storage_key,
        filename := "sediment.patch" },
    new_branch := request.new_branch,
    commit :=
      { message := request.commit_message,
        author_name := request.author_name,
        author_email := request.author_email },
    push := request.push_options.getD { remote := "origin", force := false } }

/-- `PullRequestController.create_pull_request` with the in-process
`LocalWorkflowRunner` (which executes
`run_create_pull_request_workflow` inline); `gen` carries the run's two
identifier draws. -/
def PullRequestController.create_pull_request (ctrl : PullRequestController)
    (gen : IdGen) (request : CreatePullRequestRequest) :
    CreatePullRequestResponse :=
  if ctrl.feature_flags.enable_caas_workflow = false then
    PullRequestController.legacy_create_pull_request request
  else
    let result := run_create_pull_request_workflow gen
      (ctrl.workflow_input request)
    { branch := result.new_branch,
      commit_sha := result.commit_sha,
      used_temporal_workflow := true,
      steps := result.steps }

end PullRequestManager

section Helpers

open PrCreator PullRequestManager

/-- A non-empty string stays non-empty under right-append. -/
theorem append_left_ne_empty (s t : String) (h : s ≠ "") : s ++ t ≠ "" := by
  intro he
  apply h
  have hd : s.data ++ t.data = [] := by
    have hx := String.data_append s t
    rw [he] at hx
    exact hx.symm
  exact String.ext (List.append_eq_nil.mp hd).1

/-- No command-argument list of `cmds` contains an empty-string token. -/
def noEmptyTokens (cmds : List (List String)) : Prop :=
  ∀ c ∈ cmds, ∀ a ∈ c, a ≠ ""

/-- The repository path described by the spec: the container's workspace
directory concatenated with `"/repo"`, trailing `/` characters stripped. -/
def defaultRepoPath (cfg : ContainerConfig) : String :=
  rstripSlash (cfg.workspace_dir ++ "/repo")

/-- `rstrip("/")` is the identity on a string ending in `"repo"`. -/
theorem rstripSlash_append_repo (w : String) :
    rstripSlash (w ++ "/repo") = w ++ "/repo" := by
  unfold rstripSlash
  apply String.ext
  show ((w ++ "/repo").data.reverse.dropWhile (fun c => c == '/')).reverse = _
  rw [String.data_append]
  show ((w.data ++ ['/', 'r', 'e', 'p', 'o']).reverse.dropWhile
    (fun c => c == '/')).reverse = _
  rw [List.reverse_append]
  simp [List.dropWhile]

/-- Joining the default checkout path `"repo"` under the workspace directory
gives the spec's default repository path. -/
theorem rstrip_join_repo (w : String) :
    rstripSlash (w ++ "/" ++ "repo") = rstripSlash (w ++ "/repo") := by
  rw [String.append_assoc]
  congr 1

/-- Example container configuration used by concrete witnesses. -/
def exContainerConfig : ContainerConfig :=
  { image := "img", command := ["/bin/bash"], environment := [],
    workspace_dir := "/workspace", idle_timeout_seconds := 600 }

/-- Example container handle used by concrete witnesses. -/
def exHandle : ContainerHandle :=
  { container_id := "caas-abc", workspace_dir := "/workspace" }

/-- Example clone options (no sparse paths) used by concrete witnesses. -/
def exCloneOptions : GitCloneOptions :=
  { repository_url := "https://example.com/r.git", branch := "main",
    depth := 1, sparse_paths := none }

/-- Example sediment artifact used by concrete witnesses. -/
def exSediment : SedimentArtifact :=
  { storage_key := "key", filename := "sediment.patch" }

/-- Example commit options used by concrete witnesses. -/
def exCommit : GitCommitOptions :=
  { message := "msg", author_name := "Ada Lovelace",
    author_email := "ada@example.com" }

/-- Example workflow input used by concrete witnesses. -/
def exInput : CreatePullRequestWorkflowInput :=
  { container := exContainerConfig, clone := exCloneOptions,
    sediment := exSediment, new_branch := "feature",
    commit := exCommit, push := { remote := "origin", force := false } }

/-- Example controller request used by concrete witnesses. -/
def exRequest : CreatePullRequestRequest :=
  { repository_url := "https://example.com/r.git", base_branch := "main",
    new_branch := "feature", sediment_storage_key := "key",
    commit_message := "msg", author_name := "Ada Lovelace",
    author_email := "ada@example.com", push_options := none }

end Helpers

section Claims

open PrCreator PullRequestManager

/-- C1: every orchestrator run invokes the four activities once each in the
fixed order provisioning, clone, patch-apply, branch-and-push, and its step
log is exactly one step per activity, in invocation order, named
`start-container`, `clone-repository`, `apply-sediment`, `push-branch`; the
first step has an empty command list and every other step carries exactly the
commands its activity returned. -/
theorem workflow_run_step_log (gen : IdGen)
    (inp : CreatePullRequestWorkflowInput) :
    (CreatePullRequestWorkflow.run gen inp).steps.map
        (fun s => (s.name, s.commands)) =
      [("start-container", []),
       ("clone-repository",
        (clone_repository
          { container := start_caas_container gen.container_hex inp.container,
            options := inp.clone, checkout_path := "repo" }).commands),
       ("apply-sediment",
        (apply_sediment_patch
          { container := start_caas_container gen.container_hex inp.container,
            repository_path :=
              (clone_repository
                { container :=
                    start_caas_container gen.container_hex inp.container,
                  options := inp.clone,
                  checkout_path := "repo" }).repository_path,
            sediment := inp.sediment }).commands),
       ("push-branch",
        (create_branch_and_push gen.commit_hex
          { container := start_caas_container gen.container_hex inp.container,
            repository_path :=
              (clone_repository
                { container :=
                    start_caas_container gen.container_hex inp.container,
                  options := inp.clone,
                  checkout_path := "repo" }).repository_path,
            new_branch := inp.new_branch, base_branch := inp.clone.branch,
            commit := inp.commit, push := inp.push }).commands)] := by
  simp [CreatePullRequestWorkflow.run]

/-- C2: with `sparse_paths` unset, the clone activity yields exactly one
command whose tokens are, in order: `git`, `clone`, the partial-blob filter
flag, the sparse flag, `--depth=<depth>`, `--branch=<branch>`, the
single-branch flag, the repository URL, and the resolved checkout path
(workspace dir joined with the checkout path, trailing `/` trimmed). -/
theorem clone_repository_sparse_unset (inp : CloneRepositoryActivityInput)
    (h : inp.options.sparse_paths = none) :
    clone_repository inp =
      { repository_path := rstripSlash (inp.container.workspace_dir ++ "/" ++
          inp.checkout_path),
        commands :=
          [["git", "clone", "--filter=blob:none", "--sparse",
            "--depth=" ++ toString inp.options.depth,
            "--branch=" ++ inp.options.branch,
            "--single-branch",
            inp.options.repository_url,
            rstripSlash (inp.container.workspace_dir ++ "/" ++
              inp.checkout_path)]] } := by
  simp [clone_repository, h]

/-- C2 witness: the clone command at a concrete sparse-free input. -/
theorem clone_repository_sparse_unset_witness :
    exCloneOptions.sparse_paths = none ∧
    clone_repository
        { container := exHandle, options := exCloneOptions,
          checkout_path := "repo" } =
      { repository_path := "/workspace/repo",
        commands :=
          [["git", "clone", "--filter=blob:none", "--sparse", "--depth=1",
            "--branch=main", "--single-branch", "https://example.com/r.git",
            "/workspace/repo"]] } := by
  refine ⟨rfl, ?_⟩
  have h := clone_repository_sparse_unset
    { container := exHandle, options := exCloneOptions,
      checkout_path := "repo" } rfl
  simpa using h

/-- C3: the clone activity emits a second, sparse-checkout command naming
exactly the given paths and scoped to the resolved checkout path if and only
if `sparse_paths` is non-empty; when `sparse_paths` is empty or unset the
output is exactly the single clone command, so no sparse-checkout command is
present. -/
theorem clone_repository_sparse_cases (inp : CloneRepositoryActivityInput) :
    (∀ ps, inp.options.sparse_paths = some ps → ps ≠ [] →
      (clone_repository inp).commands =
        [["git", "clone", "--filter=blob:none", "--sparse",
          "--depth=" ++ toString inp.options.depth,
          "--branch=" ++ inp.options.branch,
          "--single-branch",
          inp.options.repository_url,
          rstripSlash (inp.container.workspace_dir ++ "/" ++
            inp.checkout_path)],
         ["git", "-C",
          rstripSlash (inp.container.workspace_dir ++ "/" ++
            inp.checkout_path),
          "sparse-checkout", "set"] ++ ps]) ∧
    ((inp.options.sparse_paths = none ∨ inp.options.sparse_paths = some []) →
      (clone_repository inp).commands =
        [["git", "clone", "--filter=blob:none", "--sparse",
          "--depth=" ++ toString inp.options.depth,
          "--branch=" ++ inp.options.branch,
          "--single-branch",
          inp.options.repository_url,
          rstripSlash (inp.container.workspace_dir ++ "/" ++
            inp.checkout_path)]]) := by
  constructor
  · intro ps hps hne
    simp [clone_repository, hps, hne]
  · rintro (h | h) <;> simp [clone_repository, h]

/-- C3 witness: at a concrete input with `sparse_paths = ["a", "b"]` the
sparse-checkout command appears; with `sparse_paths` unset it does not. -/
theorem clone_repository_sparse_cases_witness :
    (clone_repository
        { container := exHandle,
          options := { exCloneOptions with sparse_paths := some ["a", "b"] },
          checkout_path := "repo" }).commands =
      [["git", "clone", "--filter=blob:none", "--sparse", "--depth=1",
        "--branch=main", "--single-branch", "https://example.com/r.git",
        "/workspace/repo"],
       ["git", "-C", "/workspace/repo", "sparse-checkout", "set", "a", "b"]] ∧
    (clone_repository
        { container := exHandle, options := exCloneOptions,
          checkout_path := "repo" }).commands =
      [["git", "clone", "--filter=blob:none", "--sparse", "--depth=1",
        "--branch=main", "--single-branch", "https://example.com/r.git",
        "/workspace/repo"]] := by
  constructor
  · have h := (clone_repository_sparse_cases
      { container := exHandle,
        options := { exCloneOptions with sparse_paths := some ["a", "b"] },
        checkout_path := "repo" }).1 ["a", "b"] rfl (by decide)
    simpa using h
  · have h := (clone_repository_sparse_cases
      { container := exHandle, options := exCloneOptions,
        checkout_path := "repo" }).2 (Or.inl rfl)
    simpa using h

/-- C4: the patch-apply activity always yields exactly three commands in
fixed order: download the artifact by storage key to the artifact filename,
upload that file into the container at `<repository_path>/<filename>`, and a
git-apply invocation against the repository path. -/
theorem apply_sediment_patch_commands (inp : ApplySedimentActivityInput) :
    (apply_sediment_patch inp).commands =
      [["artifact", "download", inp.sediment.storage_key,
        inp.sediment.filename],
       ["caas", "upload", inp.sediment.filename,
        inp.repository_path ++ "/" ++ inp.sediment.filename],
       ["git", "-C", inp.repository_path, "apply",
        inp.sediment.filename]] := rfl

end Claims

section ClaimsFive

open PrCreator PullRequestManager

/-- Branch-and-push input whose commit message is literally `--force`, with
`push.force = false`. -/
def exC5Input : CreateBranchAndPushActivityInput :=
  { container := exHandle, repository_path := "/workspace/repo",
    new_branch := "feature", base_branch := "main",
    commit := { message := "--force", author_name := "Ada Lovelace",
                author_email := "ada@example.com" },
    push := { remote := "origin", force := false } }

/-- C5 counterexample: with `push.force = false` but a commit message equal to
`--force`, the token `--force` does appear in a command (the commit command
carries the message verbatim), refuting the claim that it appears in no
command when `push.force` is false. -/
theorem create_branch_and_push_force_counterexample :
    exC5Input.push.force = false ∧
    ∃ c ∈ (create_branch_and_push "deadbeef" exC5Input).commands,
      "--force" ∈ c := by
  decide

/-- C5 amended: branch-and-push yields exactly four commands in fixed order
(checkout base branch; force-create-and-checkout the new branch; commit with
message and author token `<name> <<email>>`; push to the configured remote),
each with empty-string tokens removed, and the push command gets `--force`
appended as an extra final token exactly when `push.force` is true (when it
is false nothing is appended, though input-supplied strings may themselves
equal `--force`). -/
theorem create_branch_and_push_commands (gen : String)
    (inp : CreateBranchAndPushActivityInput) :
    (create_branch_and_push gen inp).commands =
      [(["git", "-C", inp.repository_path, "checkout",
         inp.base_branch]).filter (fun arg => arg ≠ ""),
       (["git", "-C", inp.repository_path, "checkout", "-B",
         inp.new_branch]).filter (fun arg => arg ≠ ""),
       (["git", "-C", inp.repository_path, "commit", "--all", "--message",
         inp.commit.message, "--author",
         inp.commit.author_name ++ " <" ++ inp.commit.author_email ++ ">"]
        ).filter (fun arg => arg ≠ ""),
       ((["git", "-C", inp.repository_path, "push", inp.push.remote,
          inp.new_branch]).filter (fun arg => arg ≠ "")) ++
         (if inp.push.force then ["--force"] else [])] ∧
    (inp.push.force = true →
      ((create_branch_and_push gen inp).commands[3]?.bind List.getLast?) =
        some "--force") := by
  have hmain : (create_branch_and_push gen inp).commands =
      [(["git", "-C", inp.repository_path, "checkout",
         inp.base_branch]).filter (fun arg => arg ≠ ""),
       (["git", "-C", inp.repository_path, "checkout", "-B",
         inp.new_branch]).filter (fun arg => arg ≠ ""),
       (["git", "-C", inp.repository_path, "commit", "--all", "--message",
         inp.commit.message, "--author",
         inp.commit.author_name ++ " <" ++ inp.commit.author_email ++ ">"]
        ).filter (fun arg => arg ≠ ""),
       ((["git", "-C", inp.repository_path, "push", inp.push.remote,
          inp.new_branch]).filter (fun arg => arg ≠ "")) ++
         (if inp.push.force then ["--force"] else [])] := by
    unfold create_branch_and_push
    simp only [List.map]
    refine congrArg₂ _ rfl ?_
    refine congrArg₂ _ rfl ?_
    refine congrArg₂ _ rfl ?_
    refine congrArg₂ _ ?_ rfl
    rw [show ["git", "-C", inp.repository_path, "push", inp.push.remote,
          inp.new_branch,
          if inp.push.force then "--force" else ""] =
        ["git", "-C", inp.repository_path, "push", inp.push.remote,
          inp.new_branch] ++
          [if inp.push.force then "--force" else ""] from rfl,
      List.filter_append]
    cases h : inp.push.force <;> simp
  refine ⟨hmain, fun hf => ?_⟩
  rw [hmain]
  rw [show ∀ (a b c d : List String),
        ([a, b, c, d][3]?).bind List.getLast? = d.getLast? from
      fun a b c d => rfl]
  rw [if_pos hf, List.getLast?_concat]

/-- C5 amended witness: with `push.force = true` at a concrete input the push
command's final token is `--force`. -/
theorem create_branch_and_push_commands_witness :
    ({ container := exHandle, repository_path := "/workspace/repo",
       new_branch := "feature", base_branch := "main", commit := exCommit,
       push := { remote := "origin", force := true } } :
      CreateBranchAndPushActivityInput).push.force = true ∧
    ((create_branch_and_push "deadbeef"
        { container := exHandle, repository_path := "/workspace/repo",
          new_branch := "feature", base_branch := "main", commit := exCommit,
          push := { remote := "origin",
                    force := true } }).commands[3]?.bind List.getLast?) =
      some "--force" :=
  ⟨rfl,
   (create_branch_and_push_commands "deadbeef"
      { container := exHandle, repository_path := "/workspace/repo",
        new_branch := "feature", base_branch := "main", commit := exCommit,
        push := { remote := "origin", force := true } }).2 rfl⟩

/-- Clone input whose repository URL is the empty string. -/
def exC6CloneInput : CloneRepositoryActivityInput :=
  { container := exHandle,
    options := { repository_url := "", branch := "main", depth := 1,
                 sparse_paths := none },
    checkout_path := "repo" }

/-- C6 counterexample: the clone activity performs no empty-token
normalization, so with an empty repository URL its clone command contains an
empty-string token, refuting the invariant as stated for every input. -/
theorem activities_no_empty_tokens_counterexample :
    ∃ c ∈ (clone_repository exC6CloneInput).commands, "" ∈ c := by
  decide

/-- C6 amended: branch-and-push output never contains an empty-string token
(its normalization filter guarantees this for every input, so the optional
`--force` flag is a present token exactly when `push.force` is true and is
never an empty-string placeholder); the clone and patch-apply outputs contain
no empty-string token provided their input string fields (repository URL,
resolved checkout path, sparse paths, storage key, filename, repository
path) are non-empty; the provisioning activity emits no commands at all. -/
theorem activities_no_empty_tokens :
    (∀ gen inp, noEmptyTokens (create_branch_and_push gen inp).commands) ∧
    (∀ inp : CloneRepositoryActivityInput,
      inp.options.repository_url ≠ "" →
      rstripSlash (inp.container.workspace_dir ++ "/" ++
        inp.checkout_path) ≠ "" →
      (∀ ps, inp.options.sparse_paths = some ps → ∀ p ∈ ps, p ≠ "") →
      noEmptyTokens (clone_repository inp).commands) ∧
    (∀ inp : ApplySedimentActivityInput,
      inp.repository_path ≠ "" → inp.sediment.storage_key ≠ "" →
      inp.sediment.filename ≠ "" →
      noEmptyTokens (apply_sediment_patch inp).commands) := by
  refine ⟨?_, ?_, ?_⟩
  · intro gen inp c hc a ha
    unfold create_branch_and_push at hc
    simp only [List.mem_map] at hc
    obtain ⟨c₀, _, rfl⟩ := hc
    have hf := List.mem_filter.mp ha
    simpa using hf.2
  · intro inp hurl hpath hps c hc a ha
    rcases hsp : inp.options.sparse_paths with _ | ps
    · simp only [clone_repository, hsp, List.mem_singleton] at hc
      subst hc
      simp only [List.mem_cons, List.not_mem_nil, or_false] at ha
      rcases ha with rfl | rfl | rfl | rfl | rfl | rfl | rfl | rfl | rfl
      all_goals first
        | decide
        | exact append_left_ne_empty _ _ (by decide)
        | exact hurl
        | exact hpath
    · by_cases hempty : ps = []
      · simp only [clone_repository, hsp, if_pos hempty,
          List.mem_singleton] at hc
        subst hc
        simp only [List.mem_cons, List.not_mem_nil, or_false] at ha
        rcases ha with rfl | rfl | rfl | rfl | rfl | rfl | rfl | rfl | rfl
        all_goals first
          | decide
          | exact append_left_ne_empty _ _ (by decide)
          | exact hurl
          | exact hpath
      · simp only [clone_repository, hsp, if_neg hempty,
          List.mem_cons, List.not_mem_nil, or_false] at hc
        rcases hc with rfl | rfl
        · simp only [List.mem_cons, List.not_mem_nil, or_false] at ha
          rcases ha with rfl | rfl | rfl | rfl | rfl | rfl | rfl | rfl | rfl
          all_goals first
            | decide
            | exact append_left_ne_empty _ _ (by decide)
            | exact hurl
            | exact hpath
        · simp only [List.cons_append, List.nil_append, List.mem_cons] at ha
          rcases ha with rfl | rfl | rfl | rfl | rfl | hmem
          · decide
          · decide
          · exact hpath
          · decide
          · decide
          · exact hps ps hsp a hmem
  · intro inp hrepo hkey hfn c hc a ha
    unfold apply_sediment_patch at hc
    simp only [List.mem_cons, List.not_mem_nil, or_false] at hc
    rcases hc with rfl | rfl | rfl
    · simp only [List.mem_cons, List.not_mem_nil, or_false] at ha
      rcases ha with rfl | rfl | rfl | rfl
      · decide
      · decide
      · exact hkey
      · exact hfn
    · simp only [List.mem_cons, List.not_mem_nil, or_false] at ha
      rcases ha with rfl | rfl | rfl | rfl
      · decide
      · decide
      · exact hfn
      · exact append_left_ne_empty _ _ (append_left_ne_empty _ _ hrepo)
    · simp only [List.mem_cons, List.not_mem_nil, or_false] at ha
      rcases ha with rfl | rfl | rfl | rfl | rfl
      · decide
      · decide
      · exact hrepo
      · decide
      · exact hfn

/-- C6 amended witness: no empty token in the clone output at a concrete
input with non-empty fields. -/
theorem activities_no_empty_tokens_witness :
    noEmptyTokens (clone_repository
      { container := exHandle, options := exCloneOptions,
        checkout_path := "repo" }).commands :=
  activities_no_empty_tokens.2.1
    { container := exHandle, options := exCloneOptions,
      checkout_path := "repo" }
    (by decide) (by decide) (fun ps h => Option.noConfusion h)

end ClaimsFive

section ClaimsSeven

open PrCreator PullRequestManager

/-- Controller instance with the CaaS-workflow feature flag off. -/
def exControllerOff : PullRequestController :=
  { feature_flags := { enable_caas_workflow := false },
    container_config := defaultControllerContainerConfig }

/-- Controller instance with the CaaS-workflow feature flag on. -/
def exControllerOn : PullRequestController :=
  { feature_flags := { enable_caas_workflow := true },
    container_config := defaultControllerContainerConfig }

/-- C7: with `enable_caas_workflow` off, `create_pull_request` returns the
legacy placeholder response — `used_workflow = false`, empty commit sha and
empty step log — for every request, without invoking any activity. -/
theorem controller_flag_off (ctrl : PullRequestController) (gen : IdGen)
    (req : CreatePullRequestRequest)
    (h : ctrl.feature_flags.enable_caas_workflow = false) :
    ctrl.create_pull_request gen req =
      { branch := req.new_branch, commit_sha := "",
        used_temporal_workflow := false, steps := [] } := by
  simp [PullRequestController.create_pull_request, h,
    PullRequestController.legacy_create_pull_request]

/-- C7 witness: the placeholder response at a concrete flag-off controller
and request. -/
theorem controller_flag_off_witness :
    exControllerOff.feature_flags.enable_caas_workflow = false ∧
    exControllerOff.create_pull_request ⟨"aaa", "bbb"⟩ exRequest =
      { branch := "feature", commit_sha := "",
        used_temporal_workflow := false, steps := [] } :=
  ⟨rfl, controller_flag_off exControllerOff ⟨"aaa", "bbb"⟩ exRequest rfl⟩

/-- C8: with `enable_caas_workflow` on (in-process runner),
`create_pull_request` returns `used_workflow = true`, the branch and commit
sha of the workflow result, and a step log of length 4 whose names are, in
order, `start-container`, `clone-repository`, `apply-sediment`,
`push-branch`. -/
theorem controller_flag_on (ctrl : PullRequestController) (gen : IdGen)
    (req : CreatePullRequestRequest)
    (h : ctrl.feature_flags.enable_caas_workflow = true) :
    (ctrl.create_pull_request gen req).used_temporal_workflow = true ∧
    (ctrl.create_pull_request gen req).branch =
      (CreatePullRequestWorkflow.run gen (ctrl.workflow_input req)).new_branch ∧
    (ctrl.create_pull_request gen req).commit_sha =
      (CreatePullRequestWorkflow.run gen (ctrl.workflow_input req)).commit_sha ∧
    (ctrl.create_pull_request gen req).steps.length = 4 ∧
    (ctrl.create_pull_request gen req).steps.map WorkflowStep.name =
      ["start-container", "clone-repository", "apply-sediment",
       "push-branch"] := by
  refine ⟨?_, ?_, ?_, ?_, ?_⟩ <;>
    simp [PullRequestController.create_pull_request, h,
      run_create_pull_request_workflow, CreatePullRequestWorkflow.run]

/-- C8 witness: the flag-on response shape at a concrete controller and
request. -/
theorem controller_flag_on_witness :
    exControllerOn.feature_flags.enable_caas_workflow = true ∧
    (exControllerOn.create_pull_request ⟨"aaa", "bbb"⟩
      exRequest).used_temporal_workflow = true ∧
    (exControllerOn.create_pull_request ⟨"aaa", "bbb"⟩
      exRequest).steps.length = 4 ∧
    (exControllerOn.create_pull_request ⟨"aaa", "bbb"⟩
      exRequest).steps.map WorkflowStep.name =
      ["start-container", "clone-repository", "apply-sediment",
       "push-branch"] :=
  ⟨rfl,
   (controller_flag_on exControllerOn ⟨"aaa", "bbb"⟩ exRequest rfl).1,
   (controller_flag_on exControllerOn ⟨"aaa", "bbb"⟩ exRequest rfl).2.2.2.1,
   (controller_flag_on exControllerOn ⟨"aaa", "bbb"⟩ exRequest rfl).2.2.2.2⟩

/-- C9: two orchestrator runs with identical input but different identifier
draws produce step logs with identical step names, identical ordering, and
structurally identical command lists (the generated container and commit
identifiers are excluded from the comparison). -/
theorem run_deterministic_modulo_ids (g₁ g₂ : IdGen)
    (inp : CreatePullRequestWorkflowInput) :
    (CreatePullRequestWorkflow.run g₁ inp).steps.map WorkflowStep.name =
      (CreatePullRequestWorkflow.run g₂ inp).steps.map WorkflowStep.name ∧
    (CreatePullRequestWorkflow.run g₁ inp).steps.map WorkflowStep.commands =
      (CreatePullRequestWorkflow.run g₂ inp).steps.map
        WorkflowStep.commands := by
  constructor <;>
    simp [CreatePullRequestWorkflow.run, start_caas_container,
      clone_repository, apply_sediment_patch, create_branch_and_push]

/-- C10: throughout a run the repository path — the clone destination (final
clone-command token and the clone result's `repository_path`), the path in
the patch-apply commands, and the path handed to branch-and-push — equals
the container config's `workspace_dir` concatenated with `/repo`, trailing
`/` characters stripped, since the orchestrator always uses the default
checkout path `repo` and `CreatePullRequestWorkflowInput` has no field to
override it. -/
theorem run_repository_path (gen : IdGen)
    (inp : CreatePullRequestWorkflowInput) :
    (clone_repository
      { container := start_caas_container gen.container_hex inp.container,
        options := inp.clone, checkout_path := "repo" }).repository_path =
      defaultRepoPath inp.container ∧
    ((CreatePullRequestWorkflow.run gen inp).steps.map
        WorkflowStep.commands)[1]?.bind List.head? =
      some ["git", "clone", "--filter=blob:none", "--sparse",
        "--depth=" ++ toString inp.clone.depth,
        "--branch=" ++ inp.clone.branch, "--single-branch",
        inp.clone.repository_url, defaultRepoPath inp.container] ∧
    ((CreatePullRequestWorkflow.run gen inp).steps.map
        WorkflowStep.commands)[2]? =
      some [["artifact", "download", inp.sediment.storage_key,
             inp.sediment.filename],
            ["caas", "upload", inp.sediment.filename,
             defaultRepoPath inp.container ++ "/" ++ inp.sediment.filename],
            ["git", "-C", defaultRepoPath inp.container, "apply",
             inp.sediment.filename]] ∧
    ((CreatePullRequestWorkflow.run gen inp).steps.map
        WorkflowStep.commands)[3]? =
      some (create_branch_and_push gen.commit_hex
        { container := start_caas_container gen.container_hex inp.container,
          repository_path := defaultRepoPath inp.container,
          new_branch := inp.new_branch, base_branch := inp.clone.branch,
          commit := inp.commit, push := inp.push }).commands := by
  have hpath : rstripSlash (inp.container.workspace_dir ++ "/" ++ "repo") =
      defaultRepoPath inp.container := by
    rw [rstrip_join_repo]
    rfl
  refine ⟨?_, ?_, ?_, ?_⟩
  · simp [clone_repository, start_caas_container, hpath]
  · rcases hsp : inp.clone.sparse_paths with _ | ps
    · simp [CreatePullRequestWorkflow.run, clone_repository,
        start_caas_container, hsp, hpath]
    · by_cases hempty : ps = []
      · simp [CreatePullRequestWorkflow.run, clone_repository,
          start_caas_container, hsp, hempty, hpath]
      · simp [CreatePullRequestWorkflow.run, clone_repository,
          start_caas_container, hsp, hempty, hpath]
  · simp [CreatePullRequestWorkflow.run, clone_repository,
      apply_sediment_patch, start_caas_container, hpath]
  · simp [CreatePullRequestWorkflow.run, clone_repository,
      start_caas_container, hpath]

end ClaimsSeven
